import Mathlib

/-!
Verification development for the citrinelexer repository: a SQL lexer
(`lexer.go`) and recursive-descent parser (`ast.go`).

The Go lexer indexes its input string byte by byte (`rune(l.input[i])`
casts a single byte), so the faithful model of the input is a list of
byte values (`Nat`, each value in 0..255).  The predicates that the Go
code takes from the `unicode` package (`IsLetter`, `IsDigit`, `IsSpace`)
are therefore only ever applied to code points 0..255 and are embedded
here as their exact restrictions to that range.

Loops and the comment-skipping recursion of `NextToken` are embedded
with an explicit fuel parameter; the public entry points instantiate the
fuel with `input.length + 2`, which is shown (and, for the universal
theorems, proved) to be enough for the scanner to reach `EOF`.
-/

namespace Citrine

/-- Bytes of a (pure ASCII) Lean string literal, for writing inputs. -/
def strB (s : String) : List Nat := s.data.map Char.toNat

/-- Go renders a rune to a string in UTF-8; for code points below 0x800
this is one or two bytes.  Used for `string(l.ch)` and
`strings.Builder.WriteRune`. -/
def goRuneToBytes (c : Nat) : List Nat :=
  if c < 128 then [c] else [192 + c / 64, 128 + c % 64]

/-- `isLetter` from lexer.go: ASCII letters, underscore, or
`unicode.IsLetter`; restricted to byte values this adds exactly the
Latin-1 letters 0xAA, 0xB5, 0xBA, 0xC0-0xD6, 0xD8-0xF6, 0xF8-0xFF. -/
def isLetterB (c : Nat) : Bool :=
  (65 ≤ c && c ≤ 90) || (97 ≤ c && c ≤ 122) || c == 95 ||
  c == 170 || c == 181 || c == 186 ||
  (192 ≤ c && c ≤ 214) || (216 ≤ c && c ≤ 246) || (248 ≤ c && c ≤ 255)

/-- `isDigit` from lexer.go: ASCII digits or `unicode.IsDigit`; no byte
value above 0x39 is in Unicode category Nd, so on bytes this is exactly
the ASCII digits. -/
def isDigitB (c : Nat) : Bool := 48 ≤ c && c ≤ 57

/-- `isHexDigit` from lexer.go. -/
def isHexB (c : Nat) : Bool :=
  isDigitB c || (97 ≤ c && c ≤ 102) || (65 ≤ c && c ≤ 70)

/-- The whitespace test of `skipWhitespace`: the four explicit
characters together with `unicode.IsSpace`, which on byte values adds
exactly 0x0B, 0x0C, 0x85 and 0xA0. -/
def isSpaceB (c : Nat) : Bool :=
  c == 32 || c == 9 || c == 10 || c == 13 ||
  c == 11 || c == 12 || c == 133 || c == 160

/-- Byte-level effect of `strings.ToUpper` as used by `lookupIdent`:
ASCII lowercase maps to uppercase, every other byte is left alone.
(Go's `ToUpper` decodes UTF-8 and maps invalid bytes to U+FFFD, but
on every output of `readIdentifier` the two functions agree on whether
the result matches one of the all-ASCII keyword table keys.) -/
def upperB (c : Nat) : Nat := if 97 ≤ c ∧ c ≤ 122 then c - 32 else c

/-- `input[a:b]` on a Go string, as a byte list. -/
def sliceB (inp : List Nat) (a b : Nat) : List Nat := (inp.drop a).take (b - a)

/-- TokenType from lexer.go, in declaration order. -/
inductive TokType where
  | SELECT | FROM | WHERE | INSERT | UPDATE | DELETE | CREATE | TABLE
  | TRUNCATE | DROP | ALTER | INDEX | PRIMARY | KEY | FOREIGN | REFERENCES
  | NOT | NULL | DEFAULT | AUTO_INCREMENT | UNIQUE
  | DATABASE | SCHEMA | CONSTRAINT | CASCADE | RESTRICT | SET_NULL
  | SET_DEFAULT | CHECK | COLLATE | AUTOINCREMENT | CONFLICT | REPLACE
  | IGNORE | FAIL | ABORT | ROLLBACK | WITHOUT | ROWID
  | PRAGMA | VACUUM | REINDEX | ANALYZE | ATTACH | DETACH | EXPLAIN
  | QUERY | PLAN
  | INT | INTEGER | VARCHAR | TEXT | CHAR | BOOLEAN | REAL | BLOB
  | DATETIME | TIMESTAMP
  | ORDER | BY | GROUP | HAVING | LIMIT | OFFSET | INNER | LEFT | RIGHT
  | FULL | OUTER | CROSS | JOIN | ON | AS | DISTINCT | UNION | INTERSECT
  | EXCEPT
  | OVER | PARTITION | WINDOW | ROWS | RANGE | UNBOUNDED | PRECEDING
  | FOLLOWING | CURRENT | ROW
  | CASE | WHEN | THEN | ELSE | END
  | COUNT | SUM | AVG | MAX | MIN
  | AND | OR | IN | LIKE | GLOB | MATCH | REGEXP | BETWEEN | IS | ISNULL
  | NOTNULL | EXISTS
  | BEGIN | COMMIT | TRANSACTION
  | TRUE | FALSE
  | IDENTIFIER | STRING | NUMBER | BOOLEAN_LITERAL | PARAMETER
  | NAMED_PARAMETER
  | EQUAL | GREATER | LESS | GREATER_EQUAL | LESS_EQUAL | NOT_EQUAL
  | NOT_EQUAL2
  | PLUS | MINUS | MULTIPLY | DIVIDE | MODULO | CONCAT
  | SEMICOLON | COMMA | LPAREN | RPAREN | DOT | ASTERISK | LBRACKET
  | RBRACKET | COLON | PIPE | BANG
  | LINE_COMMENT | BLOCK_COMMENT
  | EOF | ILLEGAL
deriving DecidableEq, Repr

/-- Token from lexer.go; `value` is the byte content of the Go string. -/
structure Token where
  type : TokType
  value : List Nat
  line : Nat
  col : Nat
deriving DecidableEq, Repr

/-- The static `keywords` map of lexer.go (note: no entry for INTO). -/
def lookupIdent (ident : List Nat) : TokType :=
  let u := ident.map upperB
  if u = strB "SELECT" then .SELECT
  else if u = strB "FROM" then .FROM
  else if u = strB "WHERE" then .WHERE
  else if u = strB "INSERT" then .INSERT
  else if u = strB "UPDATE" then .UPDATE
  else if u = strB "DELETE" then .DELETE
  else if u = strB "CREATE" then .CREATE
  else if u = strB "TABLE" then .TABLE
  else if u = strB "TRUNCATE" then .TRUNCATE
  else if u = strB "DROP" then .DROP
  else if u = strB "ALTER" then .ALTER
  else if u = strB "INDEX" then .INDEX
  else if u = strB "PRIMARY" then .PRIMARY
  else if u = strB "KEY" then .KEY
  else if u = strB "FOREIGN" then .FOREIGN
  else if u = strB "REFERENCES" then .REFERENCES
  else if u = strB "NOT" then .NOT
  else if u = strB "NULL" then .NULL
  else if u = strB "DEFAULT" then .DEFAULT
  else if u = strB "AUTO_INCREMENT" then .AUTO_INCREMENT
  else if u = strB "AUTOINCREMENT" then .AUTOINCREMENT
  else if u = strB "UNIQUE" then .UNIQUE
  else if u = strB "CHECK" then .CHECK
  else if u = strB "CONSTRAINT" then .CONSTRAINT
  else if u = strB "COLLATE" then .COLLATE
  else if u = strB "DATABASE" then .DATABASE
  else if u = strB "SCHEMA" then .SCHEMA
  else if u = strB "CASCADE" then .CASCADE
  else if u = strB "RESTRICT" then .RESTRICT
  else if u = strB "CONFLICT" then .CONFLICT
  else if u = strB "REPLACE" then .REPLACE
  else if u = strB "IGNORE" then .IGNORE
  else if u = strB "FAIL" then .FAIL
  else if u = strB "ABORT" then .ABORT
  else if u = strB "ROLLBACK" then .ROLLBACK
  else if u = strB "WITHOUT" then .WITHOUT
  else if u = strB "ROWID" then .ROWID
  else if u = strB "PRAGMA" then .PRAGMA
  else if u = strB "VACUUM" then .VACUUM
  else if u = strB "REINDEX" then .REINDEX
  else if u = strB "ANALYZE" then .ANALYZE
  else if u = strB "ATTACH" then .ATTACH
  else if u = strB "DETACH" then .DETACH
  else if u = strB "EXPLAIN" then .EXPLAIN
  else if u = strB "QUERY" then .QUERY
  else if u = strB "PLAN" then .PLAN
  else if u = strB "INT" then .INT
  else if u = strB "INTEGER" then .INTEGER
  else if u = strB "VARCHAR" then .VARCHAR
  else if u = strB "TEXT" then .TEXT
  else if u = strB "CHAR" then .CHAR
  else if u = strB "BOOLEAN" then .BOOLEAN
  else if u = strB "REAL" then .REAL
  else if u = strB "BLOB" then .BLOB
  else if u = strB "DATETIME" then .DATETIME
  else if u = strB "TIMESTAMP" then .TIMESTAMP
  else if u = strB "ORDER" then .ORDER
  else if u = strB "BY" then .BY
  else if u = strB "GROUP" then .GROUP
  else if u = strB "HAVING" then .HAVING
  else if u = strB "LIMIT" then .LIMIT
  else if u = strB "OFFSET" then .OFFSET
  else if u = strB "INNER" then .INNER
  else if u = strB "LEFT" then .LEFT
  else if u = strB "RIGHT" then .RIGHT
  else if u = strB "FULL" then .FULL
  else if u = strB "OUTER" then .OUTER
  else if u = strB "CROSS" then .CROSS
  else if u = strB "JOIN" then .JOIN
  else if u = strB "ON" then .ON
  else if u = strB "AS" then .AS
  else if u = strB "DISTINCT" then .DISTINCT
  else if u = strB "UNION" then .UNION
  else if u = strB "INTERSECT" then .INTERSECT
  else if u = strB "EXCEPT" then .EXCEPT
  else if u = strB "OVER" then .OVER
  else if u = strB "PARTITION" then .PARTITION
  else if u = strB "WINDOW" then .WINDOW
  else if u = strB "ROWS" then .ROWS
  else if u = strB "RANGE" then .RANGE
  else if u = strB "UNBOUNDED" then .UNBOUNDED
  else if u = strB "PRECEDING" then .PRECEDING
  else if u = strB "FOLLOWING" then .FOLLOWING
  else if u = strB "CURRENT" then .CURRENT
  else if u = strB "ROW" then .ROW
  else if u = strB "CASE" then .CASE
  else if u = strB "WHEN" then .WHEN
  else if u = strB "THEN" then .THEN
  else if u = strB "ELSE" then .ELSE
  else if u = strB "END" then .END
  else if u = strB "COUNT" then .COUNT
  else if u = strB "SUM" then .SUM
  else if u = strB "AVG" then .AVG
  else if u = strB "MAX" then .MAX
  else if u = strB "MIN" then .MIN
  else if u = strB "AND" then .AND
  else if u = strB "OR" then .OR
  else if u = strB "IN" then .IN
  else if u = strB "LIKE" then .LIKE
  else if u = strB "GLOB" then .GLOB
  else if u = strB "MATCH" then .MATCH
  else if u = strB "REGEXP" then .REGEXP
  else if u = strB "BETWEEN" then .BETWEEN
  else if u = strB "IS" then .IS
  else if u = strB "ISNULL" then .ISNULL
  else if u = strB "NOTNULL" then .NOTNULL
  else if u = strB "EXISTS" then .EXISTS
  else if u = strB "BEGIN" then .BEGIN
  else if u = strB "COMMIT" then .COMMIT
  else if u = strB "TRANSACTION" then .TRANSACTION
  else if u = strB "TRUE" then .TRUE
  else if u = strB "FALSE" then .FALSE
  else .IDENTIFIER

/-- The `singleCharTokens` map of lexer.go. -/
def singleCharToken (c : Nat) : Option (TokType × List Nat) :=
  if c == 59 then some (.SEMICOLON, strB ";")
  else if c == 44 then some (.COMMA, strB ",")
  else if c == 40 then some (.LPAREN, strB "(")
  else if c == 41 then some (.RPAREN, strB ")")
  else if c == 46 then some (.DOT, strB ".")
  else if c == 42 then some (.ASTERISK, strB "*")
  else if c == 43 then some (.PLUS, strB "+")
  else if c == 45 then some (.MINUS, strB "-")
  else if c == 47 then some (.DIVIDE, strB "/")
  else if c == 37 then some (.MODULO, strB "%")
  else if c == 91 then some (.LBRACKET, strB "[")
  else if c == 93 then some (.RBRACKET, strB "]")
  else if c == 58 then some (.COLON, strB ":")
  else if c == 124 then some (.PIPE, strB "|")
  else if c == 33 then some (.BANG, strB "!")
  else none

/-- Lexer from lexer.go; `ch` holds the current byte, 0 past the end. -/
structure Lexer where
  input : List Nat
  position : Nat
  readPos : Nat
  ch : Nat
  line : Nat
  col : Nat
deriving Repr

/-- `Lexer.readChar`. -/
def readChar (l : Lexer) : Lexer :=
  if l.readPos ≥ l.input.length then
    { l with position := l.readPos, ch := 0, readPos := l.readPos + 1 }
  else
    let c := l.input.getD l.readPos 0
    if c == 10 then
      { l with position := l.readPos, ch := c, readPos := l.readPos + 1,
               line := l.line + 1, col := 0 }
    else
      { l with position := l.readPos, ch := c, readPos := l.readPos + 1,
               col := l.col + 1 }

/-- `Lexer.peekChar`. -/
def peekChar (l : Lexer) : Nat := l.input.getD l.readPos 0

/-- `NewLexer`. -/
def newLexer (input : List Nat) : Lexer :=
  readChar { input := input, position := 0, readPos := 0, ch := 0, line := 1, col := 0 }

/-- Loop of `Lexer.skipWhitespace`. -/
def skipWhitespaceF : Nat → Lexer → Lexer
  | 0, l => l
  | fuel+1, l => if isSpaceB l.ch then skipWhitespaceF fuel (readChar l) else l

/-- Loop of `Lexer.readIdentifier`. -/
def identLoopF : Nat → Lexer → Lexer
  | 0, l => l
  | fuel+1, l =>
    if isLetterB l.ch || isDigitB l.ch then identLoopF fuel (readChar l) else l

/-- `Lexer.readIdentifier`. -/
def readIdentifierF (fuel : Nat) (l : Lexer) : List Nat × Lexer :=
  let l2 := identLoopF fuel l
  (sliceB l.input l.position l2.position, l2)

/-- A run of decimal digits (the plain digit loops of `readNumber`). -/
def digitLoopF : Nat → Lexer → Lexer
  | 0, l => l
  | fuel+1, l => if isDigitB l.ch then digitLoopF fuel (readChar l) else l

/-- The hex-digit loop of `readNumber`. -/
def hexLoopF : Nat → Lexer → Lexer
  | 0, l => l
  | fuel+1, l => if isHexB l.ch then hexLoopF fuel (readChar l) else l

/-- `Lexer.readNumber`. -/
def readNumberF (fuel : Nat) (l : Lexer) : List Nat × Lexer :=
  let start := l.position
  if l.ch == 48 && (peekChar l == 120 || peekChar l == 88) then
    let l2 := hexLoopF fuel (readChar (readChar l))
    (sliceB l.input start l2.position, l2)
  else
    let l1 := digitLoopF fuel l
    let l2 :=
      if l1.ch == 46 && isDigitB (peekChar l1) then digitLoopF fuel (readChar l1)
      else l1
    let l3 :=
      if l2.ch == 101 || l2.ch == 69 then
        let la := readChar l2
        let lb := if la.ch == 43 || la.ch == 45 then readChar la else la
        digitLoopF fuel lb
      else l2
    (sliceB l.input start l3.position, l3)

/-- Loop of `Lexer.readString` (after the opening delimiter is skipped). -/
def stringLoopF : Nat → Nat → Lexer → List Nat × Lexer
  | 0, _, l => ([], l)
  | fuel+1, d, l =>
    if l.ch == 0 then ([], l)
    else if l.ch == d then
      (if peekChar l == d then
        let r := stringLoopF fuel d (readChar (readChar l))
        (goRuneToBytes l.ch ++ r.1, r.2)
      else ([], readChar l))
    else if l.ch == 92 && peekChar l == d then
      let l1 := readChar l
      let r := stringLoopF fuel d (readChar l1)
      (goRuneToBytes l1.ch ++ r.1, r.2)
    else
      let r := stringLoopF fuel d (readChar l)
      (goRuneToBytes l.ch ++ r.1, r.2)

/-- `Lexer.readString`. -/
def readStringF (fuel : Nat) (d : Nat) (l : Lexer) : List Nat × Lexer :=
  stringLoopF fuel d (readChar l)

/-- Loop of `Lexer.readNamedParameter`. -/
def namedParamLoopF : Nat → Lexer → Lexer
  | 0, l => l
  | fuel+1, l =>
    if isLetterB l.ch || isDigitB l.ch || l.ch == 95 then
      namedParamLoopF fuel (readChar l)
    else l

/-- `Lexer.readNamedParameter` (the result keeps the leading sigil). -/
def readNamedParameterF (fuel : Nat) (l : Lexer) : List Nat × Lexer :=
  let start := l.position
  let l2 := namedParamLoopF fuel (readChar l)
  (sliceB l.input start l2.position, l2)

/-- Loop of `Lexer.readBracketIdentifier`. -/
def bracketLoopF : Nat → Lexer → Lexer
  | 0, l => l
  | fuel+1, l =>
    if l.ch != 93 && l.ch != 0 then bracketLoopF fuel (readChar l) else l

/-- `Lexer.readBracketIdentifier`. -/
def readBracketIdentifierF (fuel : Nat) (l : Lexer) : List Nat × Lexer :=
  let start := l.position
  let l2 := bracketLoopF fuel (readChar l)
  let value := sliceB l.input (start + 1) l2.position
  (value, if l2.ch == 93 then readChar l2 else l2)

/-- Loop of `Lexer.skipLineComment`. -/
def lineCommentLoopF : Nat → Lexer → Lexer
  | 0, l => l
  | fuel+1, l =>
    if l.ch != 10 && l.ch != 0 then lineCommentLoopF fuel (readChar l) else l

/-- Loop of `Lexer.skipBlockComment` (after the two opening bytes). -/
def blockCommentLoopF : Nat → Lexer → Lexer
  | 0, l => l
  | fuel+1, l =>
    if l.ch == 0 then l
    else if l.ch == 42 && peekChar l == 47 then readChar (readChar l)
    else blockCommentLoopF fuel (readChar l)

/-- `Lexer.skipBlockComment`. -/
def skipBlockCommentF (fuel : Nat) (l : Lexer) : Lexer :=
  blockCommentLoopF fuel (readChar (readChar l))

/-- The shared `singleCharTokens` lookup with ILLEGAL fallback that ends
several `NextToken` switch cases. -/
def punctOrIllegal (l : Lexer) : Token × Lexer :=
  match singleCharToken l.ch with
  | some tv => (⟨tv.1, tv.2, l.line, l.col⟩, readChar l)
  | none => (⟨.ILLEGAL, goRuneToBytes l.ch, l.line, l.col⟩, readChar l)

/-- The switch body of `Lexer.NextToken`, applied to the state after
`skipWhitespace`; `recur` is the recursive `NextToken` call used after a
skipped comment and `hfuel` bounds the character loops. -/
def nextTokenSwitch (recur : Lexer → Token × Lexer) (hfuel : Nat) (l : Lexer) :
    Token × Lexer :=
  if l.ch == 61 then
    if peekChar l == 61 then
      let l1 := readChar l
      (⟨.EQUAL, strB "==", l1.line, l1.col - 1⟩, readChar l1)
    else (⟨.EQUAL, strB "=", l.line, l.col⟩, readChar l)
  else if l.ch == 62 then
    if peekChar l == 61 then
      let l1 := readChar l
      (⟨.GREATER_EQUAL, strB ">=", l1.line, l1.col - 1⟩, readChar l1)
    else (⟨.GREATER, strB ">", l.line, l.col⟩, readChar l)
  else if l.ch == 60 then
    if peekChar l == 61 then
      let l1 := readChar l
      (⟨.LESS_EQUAL, strB "<=", l1.line, l1.col - 1⟩, readChar l1)
    else if peekChar l == 62 then
      let l1 := readChar l
      (⟨.NOT_EQUAL2, strB "<>", l1.line, l1.col - 1⟩, readChar l1)
    else (⟨.LESS, strB "<", l.line, l.col⟩, readChar l)
  else if l.ch == 33 then
    if peekChar l == 61 then
      let l1 := readChar l
      (⟨.NOT_EQUAL, strB "!=", l1.line, l1.col - 1⟩, readChar l1)
    else (⟨.BANG, goRuneToBytes l.ch, l.line, l.col⟩, readChar l)
  else if l.ch == 124 then
    if peekChar l == 124 then
      let l1 := readChar l
      (⟨.CONCAT, strB "||", l1.line, l1.col - 1⟩, readChar l1)
    else (⟨.PIPE, strB "|", l.line, l.col⟩, readChar l)
  else if l.ch == 45 then
    if peekChar l == 45 then recur (lineCommentLoopF hfuel l)
    else punctOrIllegal l
  else if l.ch == 47 then
    if peekChar l == 42 then recur (skipBlockCommentF hfuel l)
    else punctOrIllegal l
  else if l.ch == 59 || l.ch == 44 || l.ch == 40 || l.ch == 41 ||
          l.ch == 42 || l.ch == 43 || l.ch == 37 || l.ch == 93 then
    punctOrIllegal l
  else if l.ch == 46 then
    if isDigitB (peekChar l) then
      let r := readNumberF hfuel l
      (⟨.NUMBER, r.1, r.2.line, r.2.col⟩, r.2)
    else (⟨.DOT, strB ".", l.line, l.col⟩, readChar l)
  else if l.ch == 39 then
    let r := readStringF hfuel 39 l
    (⟨.STRING, r.1, r.2.line, r.2.col⟩, r.2)
  else if l.ch == 34 then
    let r := readStringF hfuel 34 l
    (⟨.IDENTIFIER, r.1, r.2.line, r.2.col⟩, r.2)
  else if l.ch == 96 then
    let r := readStringF hfuel 96 l
    (⟨.IDENTIFIER, r.1, r.2.line, r.2.col⟩, r.2)
  else if l.ch == 91 then
    let r := readBracketIdentifierF hfuel l
    (⟨.IDENTIFIER, r.1, r.2.line, r.2.col⟩, r.2)
  else if l.ch == 63 then (⟨.PARAMETER, strB "?", l.line, l.col⟩, readChar l)
  else if l.ch == 58 then
    if isLetterB (peekChar l) then
      let r := readNamedParameterF hfuel l
      (⟨.NAMED_PARAMETER, r.1, r.2.line, r.2.col⟩, r.2)
    else punctOrIllegal l
  else if l.ch == 36 then
    if isLetterB (peekChar l) || isDigitB (peekChar l) then
      let r := readNamedParameterF hfuel l
      (⟨.NAMED_PARAMETER, r.1, r.2.line, r.2.col⟩, r.2)
    else (⟨.ILLEGAL, goRuneToBytes l.ch, l.line, l.col⟩, readChar l)
  else if l.ch == 0 then (⟨.EOF, [], l.line, l.col⟩, readChar l)
  else if isLetterB l.ch then
    let r := readIdentifierF hfuel l
    (⟨lookupIdent r.1, r.1, r.2.line, r.2.col⟩, r.2)
  else if isDigitB l.ch then
    let r := readNumberF hfuel l
    (⟨.NUMBER, r.1, r.2.line, r.2.col⟩, r.2)
  else (⟨.ILLEGAL, goRuneToBytes l.ch, l.line, l.col⟩, readChar l)

/-- `Lexer.NextToken`: skip whitespace, then dispatch; the fuel bounds
the comment-skip recursion and the character loops. -/
def nextTokenF : Nat → Lexer → Token × Lexer
  | 0, l => (⟨.EOF, [], l.line, l.col⟩, l)
  | fuel+1, l0 =>
    nextTokenSwitch (nextTokenF fuel) (fuel+1) (skipWhitespaceF (fuel+1) l0)

/-- `Lexer.NextToken` with the standard fuel. -/
def NextToken (l : Lexer) : Token × Lexer := nextTokenF (l.input.length + 2) l

/-- Loop of `Lexer.GetAllTokens`; `none` on fuel exhaustion. -/
def drainF : Nat → Lexer → Option (List Token)
  | 0, _ => none
  | fuel+1, l =>
    let r := NextToken l
    if r.1.type = .EOF then some [r.1]
    else (drainF fuel r.2).map (r.1 :: ·)

/-- `Lexer.GetAllTokens` (total wrapper; the fuel is proved sufficient
in `drainF_newLexer_isSome`). -/
def GetAllTokens (l : Lexer) : List Token :=
  (drainF (l.input.length + 2) l).getD []

/-- The token returned by the (n+1)-st `NextToken` call on `l`. -/
def nthNextToken : Nat → Lexer → Token
  | 0, l => (NextToken l).1
  | n+1, l => nthNextToken n (NextToken l).2

/-! ### AST node taxonomy (ast.go, first file) -/

/-- Identifier expression / name node; `pos` embeds the `token.Pos`
stored from the token column. -/
structure Ident where
  name : List Nat
  pos : Nat
deriving DecidableEq, Repr

/-- Expression, the closed variant set of ast.go. -/
inductive Expr where
  | identifier (name : List Nat) (pos : Nat)
  | stringLit (value : List Nat) (pos : Nat)
  | numberLit (value : List Nat) (pos : Nat)
  | booleanLit (value : Bool) (pos : Nat)
  | binary (left : Expr) (op : List Nat) (right : Expr) (pos : Nat)
  | funcCall (name : List Nat) (args : List Expr) (pos : Nat)
  | param (name : List Nat) (pos : Nat)
deriving Repr

/-- Constraint, the closed variant set of ast.go. -/
inductive ConstraintA where
  | primaryKey (pos : Nat)
  | notNull (pos : Nat)
deriving DecidableEq, Repr

/-- The constraint variant tag, for stating claims about constraint
lists without fixing source positions. -/
inductive CKind where
  | primaryKey
  | notNull
deriving DecidableEq, Repr

/-- Tag of a constraint. -/
def ckind : ConstraintA → CKind
  | .primaryKey _ => .primaryKey
  | .notNull _ => .notNull

/-- TableRef from ast.go. -/
structure TableRef where
  name : Ident
  aliasId : Option Ident
deriving Repr

/-- ColumnDef from ast.go (`type` is the Go string, empty if absent). -/
structure ColumnDef where
  name : Ident
  type : List Nat
  constraints : List ConstraintA
deriving Repr

/-- OrderByItem from ast.go. -/
structure OrderByItem where
  expression : Expr
  direction : List Nat
deriving Repr

/-- LimitClause from ast.go. -/
structure LimitClause where
  count : Expr
  offset : Option Expr
deriving Repr

/-- Assignment from ast.go. -/
structure Assignment where
  column : Ident
  value : Expr
deriving Repr

/-- SelectStatement from ast.go (`fromRef`, `whereE` stand for the Go
fields `From` and `Where`, which are reserved words in Lean). -/
structure SelectStatement where
  selectPos : Nat
  fields : List Expr
  fromRef : Option TableRef
  whereE : Option Expr
  groupBy : List Expr
  having : Option Expr
  orderBy : List OrderByItem
  limit : Option LimitClause
deriving Repr

/-- CreateTableStatement from ast.go. -/
structure CreateTableStatement where
  createPos : Nat
  table : Ident
  columns : List ColumnDef
  constraints : List ConstraintA
deriving Repr

/-- InsertStatement from ast.go. -/
structure InsertStatement where
  insertPos : Nat
  table : Ident
  columns : List Ident
  values : List (List Expr)
deriving Repr

/-- UpdateStatement from ast.go. -/
structure UpdateStatement where
  updatePos : Nat
  table : Ident
  set : List Assignment
  whereE : Option Expr
deriving Repr

/-- DeleteStatement from ast.go. -/
structure DeleteStatement where
  deletePos : Nat
  fromId : Ident
  whereE : Option Expr
deriving Repr

/-- Statement, the closed variant set of ast.go. -/
inductive Stmt where
  | selectStmt (s : SelectStatement)
  | createTableStmt (s : CreateTableStatement)
  | insertStmt (s : InsertStatement)
  | updateStmt (s : UpdateStatement)
  | deleteStmt (s : DeleteStatement)
deriving Repr

/-! ### Parser (ast.go, second file) -/

/-- Parser from ast.go; `errors` mirrors the (unused) error accumulator. -/
structure Parser where
  lexer : Lexer
  currentToken : Token
  peekToken : Token
  errors : List String
deriving Repr

/-- The zero value of Go's `Token` struct (TokenType zero is SELECT). -/
def zeroToken : Token := ⟨.SELECT, [], 0, 0⟩

/-- `Parser.nextToken`. -/
def pAdvance (p : Parser) : Parser :=
  let r := NextToken p.lexer
  { lexer := r.2, currentToken := p.peekToken, peekToken := r.1,
    errors := p.errors }

/-- `NewParser`. -/
def newParser (l : Lexer) : Parser :=
  pAdvance (pAdvance
    { lexer := l, currentToken := zeroToken, peekToken := zeroToken, errors := [] })

/-- `Parser.expectToken`. -/
def expectTokenP (p : Parser) (t : TokType) : Bool × Parser :=
  if p.currentToken.type = t then (true, pAdvance p) else (false, p)

/-- `Parser.isDataType`. -/
def isDataTypeP (p : Parser) : Bool :=
  match p.currentToken.type with
  | .INTEGER | .INT | .TEXT | .VARCHAR | .CHAR | .REAL | .BLOB
  | .BOOLEAN | .DATETIME | .TIMESTAMP => true
  | _ => false

/-- `Parser.isConstraintKeyword`. -/
def isConstraintKeywordP (p : Parser) : Bool :=
  match p.currentToken.type with
  | .PRIMARY | .NOT | .UNIQUE | .DEFAULT => true
  | _ => false

/-- `Parser.isComparisonOperator`. -/
def isComparisonOperatorP (p : Parser) : Bool :=
  match p.currentToken.type with
  | .EQUAL | .NOT_EQUAL | .NOT_EQUAL2 | .GREATER | .LESS
  | .GREATER_EQUAL | .LESS_EQUAL | .LIKE => true
  | _ => false

mutual

/-- `Parser.parseExpression`. -/
def parseExpressionF : Nat → Parser → Except String (Expr × Parser)
  | 0, _ => .error "recursion limit"
  | fuel+1, p => parseComparisonF fuel p

/-- `Parser.parseComparison`. -/
def parseComparisonF : Nat → Parser → Except String (Expr × Parser)
  | 0, _ => .error "recursion limit"
  | fuel+1, p => do
    let (left, p1) ← parsePrimaryF fuel p
    if isComparisonOperatorP p1 then
      let op := p1.currentToken.value
      let pos := p1.currentToken.col
      let p2 := pAdvance p1
      let (right, p3) ← parsePrimaryF fuel p2
      pure (Expr.binary left op right pos, p3)
    else
      pure (left, p1)

/-- `Parser.parsePrimary`.  In the identifier/aggregate arm the source
tests `p.currentToken.Type == LPAREN` even though that arm is only
reached when the current token is one of IDENTIFIER, COUNT, SUM, AVG,
MIN, MAX; the function-call branch is kept verbatim (it is dead code),
and the arm returns without consuming the current token, exactly as the
source does. -/
def parsePrimaryF : Nat → Parser → Except String (Expr × Parser)
  | 0, _ => .error "recursion limit"
  | fuel+1, p =>
    match p.currentToken.type with
    | .IDENTIFIER | .COUNT | .SUM | .AVG | .MIN | .MAX =>
      let name := p.currentToken.value
      let pos := p.currentToken.col
      if p.currentToken.type = .LPAREN then do
        let p1 := pAdvance p
        let (args, p2) ←
          if p1.currentToken.type ≠ .RPAREN then parseArgsF fuel p1 []
          else pure (([] : List Expr), p1)
        let er := expectTokenP p2 .RPAREN
        if er.1 then pure (Expr.funcCall name args pos, er.2)
        else .error "expected )"
      else
        pure (Expr.identifier name pos, p)
    | .STRING =>
      pure (Expr.stringLit p.currentToken.value p.currentToken.col, pAdvance p)
    | .NUMBER =>
      pure (Expr.numberLit p.currentToken.value p.currentToken.col, pAdvance p)
    | .TRUE | .FALSE =>
      pure (Expr.booleanLit (p.currentToken.type == .TRUE) p.currentToken.col,
        pAdvance p)
    | .PARAMETER =>
      pure (Expr.param [] p.currentToken.col, pAdvance p)
    | .NAMED_PARAMETER =>
      pure (Expr.param p.currentToken.value p.currentToken.col, pAdvance p)
    | _ => .error "unexpected token"

/-- The argument loop inside `parsePrimary`'s function-call branch. -/
def parseArgsF : Nat → Parser → List Expr → Except String (List Expr × Parser)
  | 0, _, _ => .error "recursion limit"
  | fuel+1, p, acc => do
    let (arg, p1) ← parseExpressionF fuel p
    let acc2 := acc ++ [arg]
    if p1.currentToken.type ≠ .COMMA then pure (acc2, p1)
    else parseArgsF fuel (pAdvance p1) acc2

end

/-- The expression-list loop of `Parser.parseSelectFields`. -/
def fieldsLoopF : Nat → Parser → List Expr → Except String (List Expr × Parser)
  | 0, _, _ => .error "recursion limit"
  | fuel+1, p, acc => do
    let (e, p1) ← parseExpressionF (fuel+1) p
    let acc2 := acc ++ [e]
    if p1.currentToken.type ≠ .COMMA then pure (acc2, p1)
    else fieldsLoopF fuel (pAdvance p1) acc2

/-- `Parser.parseSelectFields`. -/
def parseSelectFieldsF (fuel : Nat) (p : Parser) :
    Except String (List Expr × Parser) :=
  if p.currentToken.type = .ASTERISK then
    pure ([Expr.identifier (strB "*") p.currentToken.col], pAdvance p)
  else
    fieldsLoopF fuel p []

/-- `Parser.parseTableRef`. -/
def parseTableRefP (p : Parser) : Except String (TableRef × Parser) :=
  if p.currentToken.type ≠ .IDENTIFIER then .error "expected table name"
  else
    let nm : Ident := ⟨p.currentToken.value, p.currentToken.col⟩
    let p1 := pAdvance p
    if p1.currentToken.type = .AS then
      let p2 := pAdvance p1
      if p2.currentToken.type ≠ .IDENTIFIER then .error "expected alias after AS"
      else
        pure (⟨nm, some ⟨p2.currentToken.value, p2.currentToken.col⟩⟩, pAdvance p2)
    else
      pure (⟨nm, none⟩, p1)

/-- The item loop of `Parser.parseOrderBy`. -/
def parseOrderByF : Nat → Parser → List OrderByItem →
    Except String (List OrderByItem × Parser)
  | 0, _, _ => .error "recursion limit"
  | fuel+1, p, acc => do
    let (e, p1) ← parseExpressionF (fuel+1) p
    let dp :=
      if p1.currentToken.type = .IDENTIFIER ∧
         (p1.currentToken.value = strB "DESC" ∨ p1.currentToken.value = strB "ASC")
      then (p1.currentToken.value, pAdvance p1)
      else (strB "ASC", p1)
    let acc2 := acc ++ [⟨e, dp.1⟩]
    if dp.2.currentToken.type ≠ .COMMA then pure (acc2, dp.2)
    else parseOrderByF fuel (pAdvance dp.2) acc2

/-- `Parser.parseLimitClause`. -/
def parseLimitClauseF (fuel : Nat) (p : Parser) :
    Except String (LimitClause × Parser) := do
  let (count, p1) ← parseExpressionF fuel p
  if p1.currentToken.type = .OFFSET then
    let p2 := pAdvance p1
    let (off, p3) ← parseExpressionF fuel p2
    pure (⟨count, some off⟩, p3)
  else
    pure (⟨count, none⟩, p1)

/-- `Parser.parseSelectStatement`. -/
def parseSelectStatementF (fuel : Nat) (p : Parser) :
    Except String (SelectStatement × Parser) := do
  let selPos := p.currentToken.col
  let e1 := expectTokenP p .SELECT
  if !e1.1 then .error "expected SELECT"
  else do
  let (fields, p1) ← parseSelectFieldsF fuel e1.2
  let (fromRef, p2) ←
    if p1.currentToken.type = .FROM then do
      let (tr, q) ← parseTableRefP (pAdvance p1)
      pure (some tr, q)
    else pure ((none : Option TableRef), p1)
  let (whereE, p3) ←
    if p2.currentToken.type = .WHERE then do
      let (e, q) ← parseExpressionF fuel (pAdvance p2)
      pure (some e, q)
    else pure ((none : Option Expr), p2)
  let (orderBy, p4) ←
    if p3.currentToken.type = .ORDER then do
      let e2 := expectTokenP (pAdvance p3) .BY
      if !e2.1 then .error "expected BY after ORDER"
      else parseOrderByF fuel e2.2 []
    else pure (([] : List OrderByItem), p3)
  let (limit, p5) ←
    if p4.currentToken.type = .LIMIT then do
      let (lc, q) ← parseLimitClauseF fuel (pAdvance p4)
      pure (some lc, q)
    else pure ((none : Option LimitClause), p4)
  pure ({ selectPos := selPos, fields := fields, fromRef := fromRef,
          whereE := whereE, groupBy := [], having := none,
          orderBy := orderBy, limit := limit }, p5)

/-- `Parser.parseConstraint`. -/
def parseConstraintP (p : Parser) : Except String (ConstraintA × Parser) :=
  match p.currentToken.type with
  | .PRIMARY =>
    let pos := p.currentToken.col
    let e := expectTokenP (pAdvance p) .KEY
    if e.1 then pure (ConstraintA.primaryKey pos, e.2)
    else .error "expected KEY after PRIMARY"
  | .NOT =>
    let pos := p.currentToken.col
    let e := expectTokenP (pAdvance p) .NULL
    if e.1 then pure (ConstraintA.notNull pos, e.2)
    else .error "expected NULL after NOT"
  | _ => .error "unknown constraint"

/-- The constraint loop of `Parser.parseColumnDef`. -/
def constraintsLoopF : Nat → Parser → List ConstraintA →
    Except String (List ConstraintA × Parser)
  | 0, _, _ => .error "recursion limit"
  | fuel+1, p, acc =>
    if isConstraintKeywordP p then do
      let (c, p1) ← parseConstraintP p
      constraintsLoopF fuel p1 (acc ++ [c])
    else
      pure (acc, p)

/-- `Parser.parseColumnDef`. -/
def parseColumnDefF (fuel : Nat) (p : Parser) :
    Except String (ColumnDef × Parser) :=
  if p.currentToken.type ≠ .IDENTIFIER then .error "expected column name"
  else do
    let nm : Ident := ⟨p.currentToken.value, p.currentToken.col⟩
    let p1 := pAdvance p
    let tp :=
      if isDataTypeP p1 then (p1.currentToken.value, pAdvance p1)
      else (([] : List Nat), p1)
    let (cs, p2) ← constraintsLoopF fuel tp.2 []
    pure ({ name := nm, type := tp.1, constraints := cs }, p2)

/-- `Parser.parseColumnDefs`. -/
def parseColumnDefsF : Nat → Parser → List ColumnDef →
    Except String (List ColumnDef × Parser)
  | 0, _, _ => .error "recursion limit"
  | fuel+1, p, acc =>
    if p.currentToken.type ≠ .RPAREN ∧ p.currentToken.type ≠ .EOF then do
      let (col, p1) ← parseColumnDefF (fuel+1) p
      let acc2 := acc ++ [col]
      if p1.currentToken.type = .COMMA then
        parseColumnDefsF fuel (pAdvance p1) acc2
      else
        pure (acc2, p1)
    else
      pure (acc, p)

/-- `Parser.parseCreateStatement`. -/
def parseCreateStatementF (fuel : Nat) (p : Parser) :
    Except String (CreateTableStatement × Parser) := do
  let createPos := p.currentToken.col
  let e1 := expectTokenP p .CREATE
  if !e1.1 then .error "expected CREATE"
  else do
  let e2 := expectTokenP e1.2 .TABLE
  if !e2.1 then .error "expected TABLE"
  else do
  let p1 := e2.2
  if p1.currentToken.type ≠ .IDENTIFIER then .error "expected table name"
  else do
  let table : Ident := ⟨p1.currentToken.value, p1.currentToken.col⟩
  let e3 := expectTokenP (pAdvance p1) .LPAREN
  if !e3.1 then .error "expected ("
  else do
  let (columns, p2) ← parseColumnDefsF fuel e3.2 []
  let e4 := expectTokenP p2 .RPAREN
  if !e4.1 then .error "expected )"
  else
    pure ({ createPos := createPos, table := table, columns := columns,
            constraints := [] }, e4.2)

/-- `Parser.parseInsertStatement` (stops after the table name, and
defensively skips a second consecutive INSERT token). -/
def parseInsertStatementF (p : Parser) :
    Except String (InsertStatement × Parser) := do
  let insertPos := p.currentToken.col
  let e1 := expectTokenP p .INSERT
  if !e1.1 then .error "expected INSERT"
  else do
  let p1 := if e1.2.currentToken.type = .INSERT then pAdvance e1.2 else e1.2
  if p1.currentToken.type ≠ .IDENTIFIER then .error "expected table name"
  else
    pure ({ insertPos := insertPos,
            table := ⟨p1.currentToken.value, p1.currentToken.col⟩,
            columns := [], values := [] }, pAdvance p1)

/-- `Parser.parseUpdateStatement` (stops after the table name). -/
def parseUpdateStatementF (p : Parser) :
    Except String (UpdateStatement × Parser) := do
  let updatePos := p.currentToken.col
  let e1 := expectTokenP p .UPDATE
  if !e1.1 then .error "expected UPDATE"
  else do
  let p1 := e1.2
  if p1.currentToken.type ≠ .IDENTIFIER then .error "expected table name"
  else
    pure ({ updatePos := updatePos,
            table := ⟨p1.currentToken.value, p1.currentToken.col⟩,
            set := [], whereE := none }, pAdvance p1)

/-- `Parser.parseDeleteStatement`. -/
def parseDeleteStatementF (fuel : Nat) (p : Parser) :
    Except String (DeleteStatement × Parser) := do
  let deletePos := p.currentToken.col
  let e1 := expectTokenP p .DELETE
  if !e1.1 then .error "expected DELETE"
  else do
  let e2 := expectTokenP e1.2 .FROM
  if !e2.1 then .error "expected FROM"
  else do
  let p1 := e2.2
  if p1.currentToken.type ≠ .IDENTIFIER then .error "expected table name"
  else do
  let fromId : Ident := ⟨p1.currentToken.value, p1.currentToken.col⟩
  let p2 := pAdvance p1
  let (whereE, p3) ←
    if p2.currentToken.type = .WHERE then do
      let (e, q) ← parseExpressionF fuel (pAdvance p2)
      pure (some e, q)
    else pure ((none : Option Expr), p2)
  pure ({ deletePos := deletePos, fromId := fromId, whereE := whereE }, p3)

/-- `Parser.ParseStatement` (the leading-keyword dispatch). -/
def parseStatementF (fuel : Nat) (p : Parser) : Except String (Stmt × Parser) :=
  if p.currentToken.type = .SELECT then
    (parseSelectStatementF fuel p).map (fun r => (Stmt.selectStmt r.1, r.2))
  else if p.currentToken.type = .CREATE then
    (parseCreateStatementF fuel p).map (fun r => (Stmt.createTableStmt r.1, r.2))
  else if p.currentToken.type = .INSERT then
    (parseInsertStatementF p).map (fun r => (Stmt.insertStmt r.1, r.2))
  else if p.currentToken.type = .UPDATE then
    (parseUpdateStatementF p).map (fun r => (Stmt.updateStmt r.1, r.2))
  else if p.currentToken.type = .DELETE then
    (parseDeleteStatementF fuel p).map (fun r => (Stmt.deleteStmt r.1, r.2))
  else
    .error "unexpected token"

/-- `Parse` (the convenience entry point composing lexer and parser). -/
def Parse (sql : List Nat) : Except String Stmt :=
  (parseStatementF (sql.length + 10) (newParser (newLexer sql))).map (·.1)

/-! ### Scanner invariants

`QL` states that a nonzero current byte implies the read cursor has not
passed the input (true of every state reachable through `readChar`).
`Mono` collects the facts preserved by every scanner step: the input is
unchanged, the read position and line number never decrease, and `QL`
is preserved. -/

/-- Cursor sanity: a nonzero current byte was read from inside the input. -/
def QL (l : Lexer) : Prop := l.ch ≠ 0 → l.readPos ≤ l.input.length

/-- Facts preserved by every scanner step. -/
def Mono (l l2 : Lexer) : Prop :=
  l2.input = l.input ∧ l.readPos ≤ l2.readPos ∧ l.line ≤ l2.line ∧
    (QL l → QL l2)

theorem mono_refl (l : Lexer) : Mono l l := ⟨rfl, le_refl _, le_refl _, id⟩

theorem mono_trans {l1 l2 l3 : Lexer} (h : Mono l1 l2) (h2 : Mono l2 l3) :
    Mono l1 l3 :=
  ⟨h2.1.trans h.1, h.2.1.trans h2.2.1, h.2.2.1.trans h2.2.2.1,
    fun q => h2.2.2.2 (h.2.2.2 q)⟩

theorem readChar_input (l : Lexer) : (readChar l).input = l.input := by
  unfold readChar; split
  · rfl
  · dsimp only; split <;> rfl

theorem readChar_readPos (l : Lexer) : (readChar l).readPos = l.readPos + 1 := by
  unfold readChar; split
  · rfl
  · dsimp only; split <;> rfl

theorem readChar_line (l : Lexer) : l.line ≤ (readChar l).line := by
  unfold readChar; split
  · exact le_refl _
  · dsimp only; split
    · exact Nat.le_succ _
    · exact le_refl _

theorem readChar_QL (l : Lexer) : QL (readChar l) := by
  unfold QL readChar; split
  · intro h; exact absurd rfl h
  · dsimp only
    rename_i hlt
    split <;> (intro _; simpa using Nat.lt_of_not_le hlt)

theorem mono_readChar (l : Lexer) : Mono l (readChar l) :=
  ⟨readChar_input l, by rw [readChar_readPos]; exact Nat.le_succ _,
    readChar_line l, fun _ => readChar_QL l⟩

theorem skipWhitespaceF_mono (fuel : Nat) : ∀ l, Mono l (skipWhitespaceF fuel l) := by
  induction fuel with
  | zero => intro l; exact mono_refl l
  | succ f IH =>
    intro l
    rw [skipWhitespaceF]
    split
    · exact mono_trans (mono_readChar l) (IH (readChar l))
    · exact mono_refl l

theorem identLoopF_mono (fuel : Nat) : ∀ l, Mono l (identLoopF fuel l) := by
  induction fuel with
  | zero => intro l; exact mono_refl l
  | succ f IH =>
    intro l
    rw [identLoopF]
    split
    · exact mono_trans (mono_readChar l) (IH (readChar l))
    · exact mono_refl l

theorem digitLoopF_mono (fuel : Nat) : ∀ l, Mono l (digitLoopF fuel l) := by
  induction fuel with
  | zero => intro l; exact mono_refl l
  | succ f IH =>
    intro l
    rw [digitLoopF]
    split
    · exact mono_trans (mono_readChar l) (IH (readChar l))
    · exact mono_refl l

theorem hexLoopF_mono (fuel : Nat) : ∀ l, Mono l (hexLoopF fuel l) := by
  induction fuel with
  | zero => intro l; exact mono_refl l
  | succ f IH =>
    intro l
    rw [hexLoopF]
    split
    · exact mono_trans (mono_readChar l) (IH (readChar l))
    · exact mono_refl l

theorem namedParamLoopF_mono (fuel : Nat) : ∀ l, Mono l (namedParamLoopF fuel l) := by
  induction fuel with
  | zero => intro l; exact mono_refl l
  | succ f IH =>
    intro l
    rw [namedParamLoopF]
    split
    · exact mono_trans (mono_readChar l) (IH (readChar l))
    · exact mono_refl l

theorem bracketLoopF_mono (fuel : Nat) : ∀ l, Mono l (bracketLoopF fuel l) := by
  induction fuel with
  | zero => intro l; exact mono_refl l
  | succ f IH =>
    intro l
    rw [bracketLoopF]
    split
    · exact mono_trans (mono_readChar l) (IH (readChar l))
    · exact mono_refl l

theorem lineCommentLoopF_mono (fuel : Nat) : ∀ l, Mono l (lineCommentLoopF fuel l) := by
  induction fuel with
  | zero => intro l; exact mono_refl l
  | succ f IH =>
    intro l
    rw [lineCommentLoopF]
    split
    · exact mono_trans (mono_readChar l) (IH (readChar l))
    · exact mono_refl l

theorem blockCommentLoopF_mono (fuel : Nat) : ∀ l, Mono l (blockCommentLoopF fuel l) := by
  induction fuel with
  | zero => intro l; exact mono_refl l
  | succ f IH =>
    intro l
    rw [blockCommentLoopF]
    split
    · exact mono_refl l
    · split
      · exact mono_trans (mono_readChar l) (mono_readChar (readChar l))
      · exact mono_trans (mono_readChar l) (IH (readChar l))

theorem stringLoopF_mono (fuel : Nat) : ∀ d l, Mono l (stringLoopF fuel d l).2 := by
  induction fuel with
  | zero => intro d l; exact mono_refl l
  | succ f IH =>
    intro d l
    rw [stringLoopF]
    split
    · exact mono_refl l
    · split
      · split
        · exact mono_trans (mono_readChar l)
            (mono_trans (mono_readChar (readChar l)) (IH d (readChar (readChar l))))
        · exact mono_readChar l
      · split
        · exact mono_trans (mono_readChar l)
            (mono_trans (mono_readChar (readChar l)) (IH d (readChar (readChar l))))
        · exact mono_trans (mono_readChar l) (IH d (readChar l))

theorem readStringF_mono (fuel d : Nat) (l : Lexer) :
    Mono l (readStringF fuel d l).2 :=
  mono_trans (mono_readChar l) (stringLoopF_mono fuel d (readChar l))

theorem readStringF_strict (fuel d : Nat) (l : Lexer) :
    l.readPos < (readStringF fuel d l).2.readPos := by
  have h := (stringLoopF_mono fuel d (readChar l)).2.1
  have h2 := readChar_readPos l
  unfold readStringF
  omega

theorem readIdentifierF_mono (fuel : Nat) (l : Lexer) :
    Mono l (readIdentifierF fuel l).2 :=
  identLoopF_mono fuel l

theorem identLoopF_strict (fuel : Nat) (l : Lexer)
    (h : (isLetterB l.ch || isDigitB l.ch) = true) :
    l.readPos < (identLoopF (fuel+1) l).readPos := by
  rw [identLoopF, if_pos h]
  have h2 := (identLoopF_mono fuel (readChar l)).2.1
  have h3 := readChar_readPos l
  omega

theorem digitLoopF_strict (fuel : Nat) (l : Lexer)
    (h : isDigitB l.ch = true) :
    l.readPos < (digitLoopF (fuel+1) l).readPos := by
  rw [digitLoopF, if_pos h]
  have h2 := (digitLoopF_mono fuel (readChar l)).2.1
  have h3 := readChar_readPos l
  omega

theorem digitLoopF_id (fuel : Nat) (l : Lexer) (h : ¬ isDigitB l.ch = true) :
    digitLoopF fuel l = l := by
  cases fuel with
  | zero => rfl
  | succ f => rw [digitLoopF, if_neg h]

theorem mono_ite {c : Prop} [Decidable c] {l : Lexer} {f g : Lexer}
    (hf : c → Mono l f) (hg : ¬c → Mono l g) : Mono l (if c then f else g) := by
  split
  · exact hf (by assumption)
  · exact hg (by assumption)

/-- Each of the three sequential phases of `readNumber` only moves the
cursor forward. -/
theorem readNumberF_mono (fuel : Nat) (l : Lexer) :
    Mono l (readNumberF fuel l).2 := by
  unfold readNumberF
  dsimp only
  split
  · exact mono_trans (mono_readChar l)
      (mono_trans (mono_readChar (readChar l)) (hexLoopF_mono fuel _))
  · have m2 : Mono l (if ((digitLoopF fuel l).ch == 46 &&
        isDigitB (peekChar (digitLoopF fuel l))) = true then
          digitLoopF fuel (readChar (digitLoopF fuel l))
        else digitLoopF fuel l) := by
      refine mono_ite (fun _ => ?_) (fun _ => digitLoopF_mono fuel l)
      exact mono_trans (digitLoopF_mono fuel l)
        (mono_trans (mono_readChar _) (digitLoopF_mono fuel _))
    refine mono_ite (fun _ => ?_) (fun _ => m2)
    refine mono_trans m2 ?_
    refine @mono_trans _ (if ((readChar _).ch == 43 || (readChar _).ch == 45) = true
        then readChar (readChar _) else readChar _) _ ?_ (digitLoopF_mono fuel _)
    refine mono_ite (fun _ => ?_) (fun _ => mono_readChar _)
    exact mono_trans (mono_readChar _) (mono_readChar _)

theorem readNumberF_strict (fuel : Nat) (l : Lexer)
    (h : isDigitB l.ch = true ∨ (l.ch = 46 ∧ isDigitB (peekChar l) = true)) :
    l.readPos < (readNumberF (fuel+1) l).2.readPos := by
  unfold readNumberF
  split
  · dsimp only
    have h2 := (hexLoopF_mono (fuel+1) (readChar (readChar l))).2.1
    have h3 := readChar_readPos l
    have h4 := readChar_readPos (readChar l)
    omega
  · dsimp only
    have mtail : ∀ l2 : Lexer, l2.readPos ≤
        (if (l2.ch == 101 || l2.ch == 69) = true then
          digitLoopF (fuel+1)
            (if ((readChar l2).ch == 43 || (readChar l2).ch == 45) = true
              then readChar (readChar l2) else readChar l2)
        else l2).readPos := by
      intro l2
      refine (@mono_ite _ _ l2 _ _ (fun _ => ?_) (fun _ => mono_refl _)).2.1
      refine @mono_trans _ (if ((readChar l2).ch == 43 || (readChar l2).ch == 45) = true
          then readChar (readChar l2) else readChar l2) _ ?_ (digitLoopF_mono (fuel+1) _)
      refine mono_ite (fun _ => ?_) (fun _ => mono_readChar _)
      exact mono_trans (mono_readChar _) (mono_readChar _)
    rcases h with h | ⟨h46, hpk⟩
    · have h1 := digitLoopF_strict fuel l h
      have m2 : (digitLoopF (fuel+1) l).readPos ≤
          (if ((digitLoopF (fuel+1) l).ch == 46 &&
            isDigitB (peekChar (digitLoopF (fuel+1) l))) = true then
              digitLoopF (fuel+1) (readChar (digitLoopF (fuel+1) l))
            else digitLoopF (fuel+1) l).readPos := by
        refine (mono_ite (fun _ => ?_) (fun _ => mono_refl _)).2.1
        exact mono_trans (mono_readChar _) (digitLoopF_mono (fuel+1) _)
      have h3 := mtail (if ((digitLoopF (fuel+1) l).ch == 46 &&
            isDigitB (peekChar (digitLoopF (fuel+1) l))) = true then
              digitLoopF (fuel+1) (readChar (digitLoopF (fuel+1) l))
            else digitLoopF (fuel+1) l)
      omega
    · have h0 : ¬ isDigitB l.ch = true := by
        rw [h46]; decide
      rw [digitLoopF_id (fuel+1) l h0]
      have hcond : (l.ch == 46 && isDigitB (peekChar l)) = true := by
        rw [h46, hpk]; rfl
      rw [if_pos hcond]
      have h2 := (digitLoopF_mono (fuel+1) (readChar l)).2.1
      have h3 := readChar_readPos l
      have h4 := mtail (digitLoopF (fuel+1) (readChar l))
      omega

theorem readNamedParameterF_mono (fuel : Nat) (l : Lexer) :
    Mono l (readNamedParameterF fuel l).2 :=
  mono_trans (mono_readChar l) (namedParamLoopF_mono fuel (readChar l))

theorem readNamedParameterF_strict (fuel : Nat) (l : Lexer) :
    l.readPos < (readNamedParameterF fuel l).2.readPos := by
  have h := (namedParamLoopF_mono fuel (readChar l)).2.1
  have h2 := readChar_readPos l
  unfold readNamedParameterF
  dsimp only
  omega

theorem readBracketIdentifierF_mono (fuel : Nat) (l : Lexer) :
    Mono l (readBracketIdentifierF fuel l).2 := by
  unfold readBracketIdentifierF
  dsimp only
  refine mono_trans (mono_readChar l) (mono_trans (bracketLoopF_mono fuel _) ?_)
  split
  · exact mono_readChar _
  · exact mono_refl _

theorem readBracketIdentifierF_strict (fuel : Nat) (l : Lexer) :
    l.readPos < (readBracketIdentifierF fuel l).2.readPos := by
  have h := (readBracketIdentifierF_mono fuel l).2.1
  have h2 := (bracketLoopF_mono fuel (readChar l)).2.1
  have h3 := readChar_readPos l
  unfold readBracketIdentifierF
  dsimp only
  split
  · have h4 := readChar_readPos (bracketLoopF fuel (readChar l))
    omega
  · omega

theorem skipBlockCommentF_mono (fuel : Nat) (l : Lexer) :
    Mono l (skipBlockCommentF fuel l) :=
  mono_trans (mono_readChar l)
    (mono_trans (mono_readChar (readChar l)) (blockCommentLoopF_mono fuel _))

theorem skipBlockCommentF_strict (fuel : Nat) (l : Lexer) :
    l.readPos < (skipBlockCommentF fuel l).readPos := by
  have h := (blockCommentLoopF_mono fuel (readChar (readChar l))).2.1
  have h2 := readChar_readPos l
  have h3 := readChar_readPos (readChar l)
  unfold skipBlockCommentF
  omega

theorem lineCommentLoopF_strict (fuel : Nat) (l : Lexer)
    (h : (l.ch != 10 && l.ch != 0) = true) :
    l.readPos < (lineCommentLoopF (fuel+1) l).readPos := by
  rw [lineCommentLoopF, if_pos h]
  have h2 := (lineCommentLoopF_mono fuel (readChar l)).2.1
  have h3 := readChar_readPos l
  omega

/-! ### The per-token specification of `NextToken` -/

/-- What one `NextToken` call guarantees: the post state is a monotone
step from the pre state, the token's line number lies between the pre
and post line numbers, and either the token is `EOF` or the call
consumed at least one byte. -/
def NTSpec (l : Lexer) (r : Token × Lexer) : Prop :=
  Mono l r.2 ∧ l.line ≤ r.1.line ∧ r.1.line ≤ r.2.line ∧
    (r.1.type = TokType.EOF ∨ l.readPos < r.2.readPos)

theorem ntspec_tok_readChar (l0 l : Lexer) (t : TokType) (v : List Nat)
    (h : Mono l0 l) : NTSpec l0 (⟨t, v, l.line, l.col⟩, readChar l) := by
  refine ⟨mono_trans h (mono_readChar l), h.2.2.1, readChar_line l, Or.inr ?_⟩
  show l0.readPos < (readChar l).readPos
  have h2 := readChar_readPos l
  have h3 := h.2.1
  omega

theorem ntspec_tok_readChar2 (l0 l : Lexer) (t : TokType) (v : List Nat)
    (c : Nat) (h : Mono l0 l) :
    NTSpec l0 (⟨t, v, (readChar l).line, c⟩, readChar (readChar l)) := by
  refine ⟨mono_trans h (mono_trans (mono_readChar l) (mono_readChar (readChar l))),
    h.2.2.1.trans (readChar_line l), readChar_line (readChar l), Or.inr ?_⟩
  show l0.readPos < (readChar (readChar l)).readPos
  have h2 := readChar_readPos l
  have h3 := readChar_readPos (readChar l)
  have h4 := h.2.1
  omega

theorem ntspec_punct (l0 l : Lexer) (h : Mono l0 l) :
    NTSpec l0 (punctOrIllegal l) := by
  unfold punctOrIllegal
  cases singleCharToken l.ch with
  | none => exact ntspec_tok_readChar l0 l _ _ h
  | some tv => exact ntspec_tok_readChar l0 l _ _ h

theorem ntspec_reader (l0 l lr : Lexer) (t : TokType) (v : List Nat)
    (h : Mono l0 l) (hr : Mono l lr) (hs : l.readPos < lr.readPos) :
    NTSpec l0 (⟨t, v, lr.line, lr.col⟩, lr) := by
  refine ⟨mono_trans h hr, h.2.2.1.trans hr.2.2.1, le_refl _, Or.inr ?_⟩
  show l0.readPos < lr.readPos
  have h2 := h.2.1
  omega

theorem ntspec_comment (l0 l lc : Lexer) (r : Token × Lexer) (h : Mono l0 l)
    (hc : Mono l lc) (hs : l.readPos < lc.readPos) (hr : NTSpec lc r) :
    NTSpec l0 r := by
  refine ⟨mono_trans h (mono_trans hc hr.1),
    (h.2.2.1.trans hc.2.2.1).trans hr.2.1, hr.2.2.1, Or.inr ?_⟩
  have h2 := h.2.1
  have h3 := hr.1.2.1
  omega

/-- Prepending a monotone step preserves the token specification. -/
theorem ntspec_pre {l0 l : Lexer} {r : Token × Lexer} (h : Mono l0 l)
    (hs : NTSpec l r) : NTSpec l0 r := by
  refine ⟨mono_trans h hs.1, h.2.2.1.trans hs.2.1, hs.2.2.1, ?_⟩
  rcases hs.2.2.2 with he | hlt
  · exact Or.inl he
  · exact Or.inr (lt_of_le_of_lt h.2.1 hlt)

/-- The switch body satisfies the token specification whenever the
comment-recursion continuation does. -/
theorem nextTokenSwitch_ntspec (recur : Lexer → Token × Lexer) (hfuel : Nat)
    (l : Lexer) (hf : 1 ≤ hfuel) (hrec : ∀ l2, NTSpec l2 (recur l2)) :
    NTSpec l (nextTokenSwitch recur hfuel l) := by
  have hw : Mono l l := mono_refl l
  obtain ⟨f, rfl⟩ : ∃ f, hfuel = f + 1 := ⟨hfuel - 1, by omega⟩
  delta nextTokenSwitch
  by_cases h1 : (l.ch == 61) = true
  · rw [if_pos h1]
    by_cases hp : (peekChar l == 61) = true
    · rw [if_pos hp]
      exact ntspec_tok_readChar2 l l _ _ _ hw
    · rw [if_neg hp]
      exact ntspec_tok_readChar l l _ _ hw
  rw [if_neg h1]
  by_cases h2 : (l.ch == 62) = true
  · rw [if_pos h2]
    by_cases hp : (peekChar l == 61) = true
    · rw [if_pos hp]
      exact ntspec_tok_readChar2 l l _ _ _ hw
    · rw [if_neg hp]
      exact ntspec_tok_readChar l l _ _ hw
  rw [if_neg h2]
  by_cases h3 : (l.ch == 60) = true
  · rw [if_pos h3]
    by_cases hp : (peekChar l == 61) = true
    · rw [if_pos hp]
      exact ntspec_tok_readChar2 l l _ _ _ hw
    · rw [if_neg hp]
      by_cases hp2 : (peekChar l == 62) = true
      · rw [if_pos hp2]
        exact ntspec_tok_readChar2 l l _ _ _ hw
      · rw [if_neg hp2]
        exact ntspec_tok_readChar l l _ _ hw
  rw [if_neg h3]
  by_cases h4 : (l.ch == 33) = true
  · rw [if_pos h4]
    by_cases hp : (peekChar l == 61) = true
    · rw [if_pos hp]
      exact ntspec_tok_readChar2 l l _ _ _ hw
    · rw [if_neg hp]
      exact ntspec_tok_readChar l l _ _ hw
  rw [if_neg h4]
  by_cases h5 : (l.ch == 124) = true
  · rw [if_pos h5]
    by_cases hp : (peekChar l == 124) = true
    · rw [if_pos hp]
      exact ntspec_tok_readChar2 l l _ _ _ hw
    · rw [if_neg hp]
      exact ntspec_tok_readChar l l _ _ hw
  rw [if_neg h5]
  by_cases h6 : (l.ch == 45) = true
  · rw [if_pos h6]
    by_cases hp : (peekChar l == 45) = true
    · rw [if_pos hp]
      refine ntspec_comment l l _ _ hw (lineCommentLoopF_mono (f+1) l) ?_ (hrec _)
      refine lineCommentLoopF_strict f l ?_
      have h45e : l.ch = 45 := by simpa using h6
      rw [h45e]; rfl
    · rw [if_neg hp]
      exact ntspec_punct l l hw
  rw [if_neg h6]
  by_cases h7 : (l.ch == 47) = true
  · rw [if_pos h7]
    by_cases hp : (peekChar l == 42) = true
    · rw [if_pos hp]
      exact ntspec_comment l l _ _ hw (skipBlockCommentF_mono (f+1) l)
        (skipBlockCommentF_strict (f+1) l) (hrec _)
    · rw [if_neg hp]
      exact ntspec_punct l l hw
  rw [if_neg h7]
  by_cases h8 : (l.ch == 59 || l.ch == 44 || l.ch == 40 || l.ch == 41 ||
      l.ch == 42 || l.ch == 43 || l.ch == 37 || l.ch == 93) = true
  · rw [if_pos h8]
    exact ntspec_punct l l hw
  rw [if_neg h8]
  by_cases h9 : (l.ch == 46) = true
  · rw [if_pos h9]
    by_cases hp : isDigitB (peekChar l) = true
    · rw [if_pos hp]
      refine ntspec_reader l l _ _ _ hw (readNumberF_mono (f+1) l) ?_
      have h46e : l.ch = 46 := by simpa using h9
      exact readNumberF_strict f l (Or.inr ⟨h46e, hp⟩)
    · rw [if_neg hp]
      exact ntspec_tok_readChar l l _ _ hw
  rw [if_neg h9]
  by_cases h10 : (l.ch == 39) = true
  · rw [if_pos h10]
    exact ntspec_reader l l _ _ _ hw (readStringF_mono (f+1) 39 l)
      (readStringF_strict (f+1) 39 l)
  rw [if_neg h10]
  by_cases h11 : (l.ch == 34) = true
  · rw [if_pos h11]
    exact ntspec_reader l l _ _ _ hw (readStringF_mono (f+1) 34 l)
      (readStringF_strict (f+1) 34 l)
  rw [if_neg h11]
  by_cases h12 : (l.ch == 96) = true
  · rw [if_pos h12]
    exact ntspec_reader l l _ _ _ hw (readStringF_mono (f+1) 96 l)
      (readStringF_strict (f+1) 96 l)
  rw [if_neg h12]
  by_cases h13 : (l.ch == 91) = true
  · rw [if_pos h13]
    exact ntspec_reader l l _ _ _ hw (readBracketIdentifierF_mono (f+1) l)
      (readBracketIdentifierF_strict (f+1) l)
  rw [if_neg h13]
  by_cases h14 : (l.ch == 63) = true
  · rw [if_pos h14]
    exact ntspec_tok_readChar l l _ _ hw
  rw [if_neg h14]
  by_cases h15 : (l.ch == 58) = true
  · rw [if_pos h15]
    by_cases hp : isLetterB (peekChar l) = true
    · rw [if_pos hp]
      exact ntspec_reader l l _ _ _ hw (readNamedParameterF_mono (f+1) l)
        (readNamedParameterF_strict (f+1) l)
    · rw [if_neg hp]
      exact ntspec_punct l l hw
  rw [if_neg h15]
  by_cases h16 : (l.ch == 36) = true
  · rw [if_pos h16]
    by_cases hp : (isLetterB (peekChar l) || isDigitB (peekChar l)) = true
    · rw [if_pos hp]
      exact ntspec_reader l l _ _ _ hw (readNamedParameterF_mono (f+1) l)
        (readNamedParameterF_strict (f+1) l)
    · rw [if_neg hp]
      exact ntspec_tok_readChar l l _ _ hw
  rw [if_neg h16]
  by_cases h17 : (l.ch == 0) = true
  · rw [if_pos h17]
    exact ntspec_tok_readChar l l _ _ hw
  rw [if_neg h17]
  by_cases h18 : isLetterB l.ch = true
  · rw [if_pos h18]
    refine ntspec_reader l l _ _ _ hw (readIdentifierF_mono (f+1) l) ?_
    have hc : (isLetterB l.ch || isDigitB l.ch) = true := by rw [h18]; rfl
    exact identLoopF_strict f l hc
  rw [if_neg h18]
  by_cases h19 : isDigitB l.ch = true
  · rw [if_pos h19]
    exact ntspec_reader l l _ _ _ hw (readNumberF_mono (f+1) l)
      (readNumberF_strict f l (Or.inl h19))
  rw [if_neg h19]
  exact ntspec_tok_readChar l l _ _ hw

/-- The main step lemma: every `nextTokenF` call satisfies `NTSpec`. -/
theorem nextTokenF_ntspec : ∀ fuel l0, NTSpec l0 (nextTokenF fuel l0) := by
  intro fuel
  induction fuel with
  | zero =>
    intro l0
    exact ⟨mono_refl l0, le_refl _, le_refl _, Or.inl rfl⟩
  | succ f IH =>
    intro l0
    rw [nextTokenF]
    exact ntspec_pre (skipWhitespaceF_mono (f+1) l0)
      (nextTokenSwitch_ntspec (nextTokenF f) (f+1) _ (by omega) IH)

/-- `NextToken` satisfies the step specification. -/
theorem nextToken_ntspec (l : Lexer) : NTSpec l (NextToken l) :=
  nextTokenF_ntspec (l.input.length + 2) l

/-! ### EOF behaviour and the full drain -/

theorem skipWhitespaceF_id (fuel : Nat) (l : Lexer)
    (h : ¬ isSpaceB l.ch = true) : skipWhitespaceF fuel l = l := by
  cases fuel with
  | zero => rfl
  | succ f => rw [skipWhitespaceF, if_neg h]

/-- With the current byte 0, `NextToken` yields the EOF token and just
advances the cursor once. -/
theorem nextTokenF_at_zero (fuel : Nat) (l : Lexer) (hf : 1 ≤ fuel)
    (h : l.ch = 0) :
    nextTokenF fuel l = (⟨.EOF, [], l.line, l.col⟩, readChar l) := by
  obtain ⟨f, rfl⟩ : ∃ f, fuel = f + 1 := ⟨fuel - 1, by omega⟩
  rw [nextTokenF, skipWhitespaceF_id (f+1) l (by rw [h]; decide)]
  delta nextTokenSwitch
  rw [if_neg (show ¬((l.ch == 61) = true) by rw [h]; decide)]
  rw [if_neg (show ¬((l.ch == 62) = true) by rw [h]; decide)]
  rw [if_neg (show ¬((l.ch == 60) = true) by rw [h]; decide)]
  rw [if_neg (show ¬((l.ch == 33) = true) by rw [h]; decide)]
  rw [if_neg (show ¬((l.ch == 124) = true) by rw [h]; decide)]
  rw [if_neg (show ¬((l.ch == 45) = true) by rw [h]; decide)]
  rw [if_neg (show ¬((l.ch == 47) = true) by rw [h]; decide)]
  rw [if_neg (show ¬((l.ch == 59 || l.ch == 44 || l.ch == 40 || l.ch == 41 ||
      l.ch == 42 || l.ch == 43 || l.ch == 37 || l.ch == 93) = true) by
    rw [h]; decide)]
  rw [if_neg (show ¬((l.ch == 46) = true) by rw [h]; decide)]
  rw [if_neg (show ¬((l.ch == 39) = true) by rw [h]; decide)]
  rw [if_neg (show ¬((l.ch == 34) = true) by rw [h]; decide)]
  rw [if_neg (show ¬((l.ch == 96) = true) by rw [h]; decide)]
  rw [if_neg (show ¬((l.ch == 91) = true) by rw [h]; decide)]
  rw [if_neg (show ¬((l.ch == 63) = true) by rw [h]; decide)]
  rw [if_neg (show ¬((l.ch == 58) = true) by rw [h]; decide)]
  rw [if_neg (show ¬((l.ch == 36) = true) by rw [h]; decide)]
  rw [if_pos (show (l.ch == 0) = true by rw [h]; decide)]

theorem nextToken_at_zero (l : Lexer) (h : l.ch = 0) :
    NextToken l = (⟨.EOF, [], l.line, l.col⟩, readChar l) :=
  nextTokenF_at_zero (l.input.length + 2) l (by omega) h

theorem readChar_past_end (l : Lexer) (h : l.input.length ≤ l.readPos) :
    readChar l = { l with position := l.readPos, ch := 0,
                          readPos := l.readPos + 1 } := by
  unfold readChar
  rw [if_pos h]

/-- Once the read cursor has passed the end of the input, every
`NextToken` call returns the EOF token. -/
theorem nthNextToken_past_end (n : Nat) :
    ∀ l : Lexer, l.ch = 0 → l.input.length ≤ l.readPos →
      (nthNextToken n l).type = TokType.EOF := by
  induction n with
  | zero =>
    intro l h0 hend
    show (NextToken l).1.type = TokType.EOF
    rw [nextToken_at_zero l h0]
  | succ m IH =>
    intro l h0 hend
    show (nthNextToken m (NextToken l).2).type = TokType.EOF
    rw [nextToken_at_zero l h0]
    dsimp only
    rw [readChar_past_end l hend]
    exact IH _ rfl (by dsimp only; omega)

theorem getLast?_cons_of_getLast? {α : Type} (a : α) {ts : List α} {t : α}
    (h : ts.getLast? = some t) : (a :: ts).getLast? = some t := by
  cases ts with
  | nil => simp at h
  | cons b l => rw [List.getLast?_cons_cons]; exact h

/-- Whatever tokens a terminating drain produced, it contains exactly
one EOF token and that token is the last element. -/
theorem drainF_shape : ∀ (fuel : Nat) (l : Lexer) (ts : List Token),
    drainF fuel l = some ts →
      (ts.filter (fun t => t.type == TokType.EOF)).length = 1 ∧
      ∃ t, ts.getLast? = some t ∧ t.type = TokType.EOF := by
  intro fuel
  induction fuel with
  | zero => intro l ts h; simp [drainF] at h
  | succ f IH =>
    intro l ts h
    rw [drainF] at h
    by_cases hEOF : (NextToken l).1.type = TokType.EOF
    · rw [if_pos hEOF] at h
      obtain rfl : [(NextToken l).1] = ts := by
        simpa using h
      refine ⟨?_, (NextToken l).1, by simp, hEOF⟩
      simp [List.filter, hEOF]
    · rw [if_neg hEOF] at h
      obtain ⟨ts2, hts2, rfl⟩ : ∃ ts2, drainF f (NextToken l).2 = some ts2 ∧
          (NextToken l).1 :: ts2 = ts := by
        cases hd : drainF f (NextToken l).2 with
        | none => rw [hd] at h; simp at h
        | some ts2 =>
          rw [hd] at h
          exact ⟨ts2, rfl, by simpa using h⟩
      obtain ⟨hcount, t, hlast, ht⟩ := IH _ _ hts2
      refine ⟨?_, t, getLast?_cons_of_getLast? _ hlast, ht⟩
      have hne : ((NextToken l).1.type == TokType.EOF) = false := by
        simpa using hEOF
      simp [List.filter, hne, hcount]

/-- The fuel `input.length + 2` is always enough for a full drain. -/
theorem drainF_isSome : ∀ (n : Nat) (l : Lexer), QL l →
    l.input.length + 1 ≤ n + l.readPos → (drainF (n+1) l).isSome := by
  intro n
  induction n with
  | zero =>
    intro l hq hlen
    have h0 : l.ch = 0 := by
      by_contra hne
      have := hq hne
      omega
    rw [drainF]
    rw [show (NextToken l).1 = ⟨.EOF, [], l.line, l.col⟩ by
      rw [nextToken_at_zero l h0]]
    simp
  | succ m IH =>
    intro l hq hlen
    rw [drainF]
    by_cases hEOF : (NextToken l).1.type = TokType.EOF
    · rw [if_pos hEOF]; simp
    · rw [if_neg hEOF]
      have hspec := nextToken_ntspec l
      have hlt : l.readPos < (NextToken l).2.readPos := by
        rcases hspec.2.2.2 with he | hlt
        · exact absurd he hEOF
        · exact hlt
      have hq2 : QL (NextToken l).2 := hspec.1.2.2.2 hq
      have hinp : (NextToken l).2.input = l.input := hspec.1.1
      have hs := IH (NextToken l).2 hq2 (by rw [hinp]; omega)
      cases hd : drainF (m+1) (NextToken l).2 with
      | none => rw [hd] at hs; simp at hs
      | some ts => simp

theorem newLexer_input (s : List Nat) : (newLexer s).input = s := by
  unfold newLexer
  rw [readChar_input]

theorem newLexer_QL (s : List Nat) : QL (newLexer s) := readChar_QL _

/-- `GetAllTokens` on a fresh scanner never runs out of fuel. -/
theorem getAllTokens_eq_drain (s : List Nat) :
    ∃ ts, drainF (s.length + 2) (newLexer s) = some ts ∧
      GetAllTokens (newLexer s) = ts := by
  have h := drainF_isSome (s.length + 1) (newLexer s) (newLexer_QL s)
    (by rw [newLexer_input]; omega)
  cases hd : drainF (s.length + 2) (newLexer s) with
  | none => rw [hd] at h; simp at h
  | some ts =>
    refine ⟨ts, rfl, ?_⟩
    unfold GetAllTokens
    rw [newLexer_input, hd]
    rfl

/-- Every token of a drain carries a line number at least the scanner's
starting line, and the line numbers are non-decreasing along the drain. -/
theorem drainF_lines : ∀ (fuel : Nat) (l : Lexer) (ts : List Token),
    drainF fuel l = some ts →
      (∀ t ∈ ts, l.line ≤ t.line) ∧
      List.Chain' (fun a b => a.line ≤ b.line) ts := by
  intro fuel
  induction fuel with
  | zero => intro l ts h; simp [drainF] at h
  | succ f IH =>
    intro l ts h
    rw [drainF] at h
    have hspec := nextToken_ntspec l
    by_cases hEOF : (NextToken l).1.type = TokType.EOF
    · rw [if_pos hEOF] at h
      obtain rfl : [(NextToken l).1] = ts := by simpa using h
      exact ⟨by simpa using hspec.2.1, by simp⟩
    · rw [if_neg hEOF] at h
      obtain ⟨ts2, hts2, rfl⟩ : ∃ ts2, drainF f (NextToken l).2 = some ts2 ∧
          (NextToken l).1 :: ts2 = ts := by
        cases hd : drainF f (NextToken l).2 with
        | none => rw [hd] at h; simp at h
        | some ts2 =>
          rw [hd] at h
          exact ⟨ts2, rfl, by simpa using h⟩
      obtain ⟨hall, hchain⟩ := IH _ _ hts2
      have htok : l.line ≤ (NextToken l).1.line := hspec.2.1
      have hpost : (NextToken l).1.line ≤ (NextToken l).2.line := hspec.2.2.1
      constructor
      · intro t ht
        rcases List.mem_cons.mp ht with rfl | ht2
        · exact htok
        · exact le_trans (le_trans htok hpost) (hall t ht2)
      · rw [List.chain'_cons']
        refine ⟨?_, hchain⟩
        intro b hb
        have hb2 : b ∈ ts2 := List.mem_of_mem_head? hb
        exact le_trans hpost (hall b hb2)

theorem newLexer_line (s : List Nat) : 1 ≤ (newLexer s).line := by
  have h := readChar_line { input := s, position := 0, readPos := 0, ch := 0,
                            line := 1, col := 0 }
  exact h

/-! ### The claims -/

/-- C1: the specification states that for every syntactically valid
`SELECT <fields> FROM <table>` the parser returns a `SelectStatement`
with non-empty `Fields` and a present `From`.  The code does not: in
`parsePrimary` the identifier arm never consumes its token, so after a
non-`*` field list the parser still sits on the first field token,
never sees `FROM`, and returns `From = none`.  This theorem evaluates
the parser on the README's own example input and exhibits the lost
`FROM` (and `WHERE`) clauses. -/
theorem claim1_select_from_dropped :
    Parse (strB "SELECT name FROM users WHERE id = 123;") =
      Except.ok (Stmt.selectStmt
        { selectPos := 7,
          fields := [Expr.identifier (strB "name") 12],
          fromRef := none,
          whereE := none,
          groupBy := [],
          having := none,
          orderBy := [],
          limit := none }) := by
  rfl

/-- C2: the specification states that `parsePrimary` on an identifier or
aggregate keyword immediately followed by `(` yields a `FunctionCall`.
The code cannot: the guard `p.currentToken.Type == LPAREN` sits inside
the arm that just matched IDENTIFIER/COUNT/SUM/AVG/MIN/MAX, so it can
never hold, and the arm returns an `Identifier` without consuming the
token.  This theorem evaluates `parsePrimary` on `COUNT(id)` (current
token COUNT, peek token `(`) and shows it returns the bare identifier
and leaves the parser state untouched. -/
theorem claim2_parse_primary_no_funccall :
    parsePrimaryF ((strB "COUNT(id)").length + 10)
        (newParser (newLexer (strB "COUNT(id)"))) =
      Except.ok (Expr.identifier (strB "COUNT") 6,
        newParser (newLexer (strB "COUNT(id)"))) := by
  rfl

/-- C3: parsing `CREATE TABLE users (id INTEGER PRIMARY KEY, name TEXT
NOT NULL)` succeeds with table name `users` and exactly the two column
definitions `(id, INTEGER, [PrimaryKey])` and `(name, TEXT, [NotNull])`. -/
theorem claim3_create_table :
    Parse (strB "CREATE TABLE users (id INTEGER PRIMARY KEY, name TEXT NOT NULL)") =
      Except.ok (Stmt.createTableStmt
        { createPos := 7,
          table := ⟨strB "users", 19⟩,
          columns :=
            [⟨⟨strB "id", 23⟩, strB "INTEGER", [ConstraintA.primaryKey 39]⟩,
             ⟨⟨strB "name", 49⟩, strB "TEXT", [ConstraintA.notNull 58]⟩],
          constraints := [] }) := by
  rfl

/-- C4: scanning `SELECT name, age FROM users WHERE id = 123;` produces
exactly the token sequence SELECT, IDENTIFIER name, COMMA, IDENTIFIER
age, FROM, IDENTIFIER users, WHERE, IDENTIFIER id, EQUAL =, NUMBER 123,
SEMICOLON, EOF. -/
theorem claim4_token_stream :
    (GetAllTokens (newLexer (strB "SELECT name, age FROM users WHERE id = 123;"))).map
      (fun t => (t.type, t.value)) =
    [(TokType.SELECT, strB "SELECT"), (TokType.IDENTIFIER, strB "name"),
     (TokType.COMMA, strB ","), (TokType.IDENTIFIER, strB "age"),
     (TokType.FROM, strB "FROM"), (TokType.IDENTIFIER, strB "users"),
     (TokType.WHERE, strB "WHERE"), (TokType.IDENTIFIER, strB "id"),
     (TokType.EQUAL, strB "="), (TokType.NUMBER, strB "123"),
     (TokType.SEMICOLON, strB ";"), (TokType.EOF, [])] := by
  rfl

/-- C5 counterexample: the claim that once `NextToken` has returned EOF
every later call returns EOF again fails on an input whose first byte
is NUL: the first call returns EOF (the byte 0 is the in-band sentinel),
but the cursor then moves past the NUL and the second call returns the
IDENTIFIER `a`. -/
theorem claim5_counterexample :
    (nthNextToken 0 (newLexer [0, 97])).type = TokType.EOF ∧
    (nthNextToken 1 (newLexer [0, 97])).type = TokType.IDENTIFIER ∧
    TokType.IDENTIFIER ≠ TokType.EOF :=
  ⟨rfl, rfl, by decide⟩

/-- C5 (amended): every full drain of a fresh scanner contains exactly
one EOF token and it is the last element; and once `NextToken` returns
EOF with the read cursor at or past the end of the input — which is the
case on every input free of NUL bytes — every subsequent `NextToken`
call returns EOF again. -/
theorem claim5_amended (s : List Nat) (l : Lexer) (h0 : l.ch = 0)
    (hend : l.input.length ≤ l.readPos) :
    ((GetAllTokens (newLexer s)).filter
        (fun t => t.type == TokType.EOF)).length = 1 ∧
    (∃ t, (GetAllTokens (newLexer s)).getLast? = some t ∧
        t.type = TokType.EOF) ∧
    ∀ n, (nthNextToken n l).type = TokType.EOF := by
  obtain ⟨ts, hd, hts⟩ := getAllTokens_eq_drain s
  obtain ⟨hc, t, hl, ht⟩ := drainF_shape _ _ _ hd
  rw [hts]
  exact ⟨hc, ⟨t, hl, ht⟩, fun n => nthNextToken_past_end n l h0 hend⟩

/-- Witness for C5 at the input `A` and a scanner state that has just
consumed the whole input. -/
theorem claim5_witness :
    ((GetAllTokens (newLexer (strB "A"))).filter
        (fun t => t.type == TokType.EOF)).length = 1 ∧
    (nthNextToken 3 (⟨strB "A", 1, 2, 0, 1, 1⟩ : Lexer)).type = TokType.EOF :=
  ⟨(claim5_amended (strB "A") ⟨strB "A", 1, 2, 0, 1, 1⟩ rfl (by decide)).1,
   (claim5_amended (strB "A") ⟨strB "A", 1, 2, 0, 1, 1⟩ rfl (by decide)).2.2 3⟩

/-- C6: scanning the six bytes of the literal whose spelling is
quote i t quote quote s quote yields one STRING token decoding the
doubled delimiter to a single quote, and scanning
quote a backslash quote b quote yields one STRING token decoding the
backslash-escaped delimiter; both strip the outer delimiters. -/
theorem claim6_string_escapes :
    (GetAllTokens (newLexer [39, 105, 116, 39, 39, 115, 39])).map
        (fun t => (t.type, t.value)) =
      [(TokType.STRING, [105, 116, 39, 115]), (TokType.EOF, [])] ∧
    (GetAllTokens (newLexer [39, 97, 92, 39, 98, 39])).map
        (fun t => (t.type, t.value)) =
      [(TokType.STRING, [97, 39, 98]), (TokType.EOF, [])] :=
  ⟨rfl, rfl⟩

/-- C7: `0xFF` scans as the single NUMBER token `0xFF`, `1.23e-4` as the
single NUMBER token spanning the full exponent, and `.5` as the single
NUMBER token `.5`. -/
theorem claim7_numeric_literals :
    (GetAllTokens (newLexer (strB "0xFF"))).map (fun t => (t.type, t.value)) =
      [(TokType.NUMBER, strB "0xFF"), (TokType.EOF, [])] ∧
    (GetAllTokens (newLexer (strB "1.23e-4"))).map (fun t => (t.type, t.value)) =
      [(TokType.NUMBER, strB "1.23e-4"), (TokType.EOF, [])] ∧
    (GetAllTokens (newLexer (strB ".5"))).map (fun t => (t.type, t.value)) =
      [(TokType.NUMBER, strB ".5"), (TokType.EOF, [])] :=
  ⟨rfl, rfl, rfl⟩

/-- C8: whenever the first token of the input is none of SELECT, CREATE,
INSERT, UPDATE, DELETE, `Parse` returns an error and never a statement. -/
theorem claim8_unknown_leading_token (s : List Nat)
    (h1 : (newParser (newLexer s)).currentToken.type ≠ TokType.SELECT)
    (h2 : (newParser (newLexer s)).currentToken.type ≠ TokType.CREATE)
    (h3 : (newParser (newLexer s)).currentToken.type ≠ TokType.INSERT)
    (h4 : (newParser (newLexer s)).currentToken.type ≠ TokType.UPDATE)
    (h5 : (newParser (newLexer s)).currentToken.type ≠ TokType.DELETE) :
    ∃ e, Parse s = Except.error e := by
  unfold Parse parseStatementF
  rw [if_neg h1, if_neg h2, if_neg h3, if_neg h4, if_neg h5]
  exact ⟨"unexpected token", rfl⟩

/-- Witness for C8 at the input `FOO BAR`, whose first token is the
identifier FOO. -/
theorem claim8_witness : ∃ e, Parse (strB "FOO BAR") = Except.error e :=
  claim8_unknown_leading_token (strB "FOO BAR")
    (by decide) (by decide) (by decide) (by decide) (by decide)

/-- C9 counterexample: the claim that every token of a full scan has
column at least 1 fails on the input `a` newline: the IDENTIFIER token
is stamped with the position reached after the trailing newline was
consumed, so its column is 0. -/
theorem claim9_counterexample :
    ¬ ∀ t ∈ GetAllTokens (newLexer (strB "a\n")), 1 ≤ t.col := by
  decide

/-- C9 (amended): every token produced by a full scan has line at least
1, and the line numbers of successive tokens are monotonically
non-decreasing; the column may be 0 (the column claim is dropped). -/
theorem claim9_amended (s : List Nat) :
    (∀ t ∈ GetAllTokens (newLexer s), 1 ≤ t.line) ∧
    List.Chain' (fun a b => a.line ≤ b.line) (GetAllTokens (newLexer s)) := by
  obtain ⟨ts, hd, hts⟩ := getAllTokens_eq_drain s
  obtain ⟨hall, hchain⟩ := drainF_lines _ _ _ hd
  rw [hts]
  exact ⟨fun t ht => le_trans (newLexer_line s) (hall t ht), hchain⟩

/-- Witness for C9 at the input `x` and its IDENTIFIER token. -/
theorem claim9_witness :
    1 ≤ (⟨TokType.IDENTIFIER, strB "x", 1, 1⟩ : Token).line ∧
    List.Chain' (fun a b => a.line ≤ b.line) (GetAllTokens (newLexer (strB "x"))) :=
  ⟨(claim9_amended (strB "x")).1 ⟨TokType.IDENTIFIER, strB "x", 1, 1⟩ (by decide),
   (claim9_amended (strB "x")).2⟩

/-- C10: parsing `INSERT INTO users` succeeds with an InsertStatement
whose table name is `INTO` (INTO is not in the keyword table, so it
lexes as an identifier the INSERT grammar accepts as the table name),
and the trailing `users` token is left unconsumed as the parser's
current token. -/
theorem claim10_insert_into :
    Parse (strB "INSERT INTO users") =
      Except.ok (Stmt.insertStmt
        { insertPos := 7, table := ⟨strB "INTO", 12⟩,
          columns := [], values := [] }) ∧
    (parseStatementF ((strB "INSERT INTO users").length + 10)
        (newParser (newLexer (strB "INSERT INTO users")))).map
      (fun r => (r.2.currentToken.type, r.2.currentToken.value)) =
      Except.ok (TokType.IDENTIFIER, strB "users") :=
  ⟨rfl, rfl⟩

end Citrine
